import Mathlib

/-!
Verification of the access-point reconciliation engine of
`networkmanager-dbus` (`src/wifi-device.ts`).

The TypeScript source is shallowly embedded: JavaScript `Map` objects and
plain-object property maps become association lists over `String` keys,
DBus `Variant` wrappers are flattened to their `.value` payloads, and each
asynchronous signal handler becomes a pure state-transition function on an
explicit device-state record.  Remote fetches and the uptime file read are
passed in as `Except`-valued parameters so that both their success and
failure paths are represented.
-/

set_option autoImplicit false

namespace NMDBus

/-! ## Security flag constants (`NM80211ApSecurityFlags`, wifi-device.ts lines 20-35) -/

namespace NM80211ApSecurityFlags

def NM_802_11_AP_SEC_NONE : Nat := 0x00000000
def NM_802_11_AP_SEC_PAIR_WEP40 : Nat := 0x00000001
def NM_802_11_AP_SEC_PAIR_WEP104 : Nat := 0x00000002
def NM_802_11_AP_SEC_PAIR_TKIP : Nat := 0x00000004
def NM_802_11_AP_SEC_PAIR_CCMP : Nat := 0x00000008
def NM_802_11_AP_SEC_GROUP_WEP40 : Nat := 0x00000010
def NM_802_11_AP_SEC_GROUP_WEP104 : Nat := 0x00000020
def NM_802_11_AP_SEC_GROUP_TKIP : Nat := 0x00000040
def NM_802_11_AP_SEC_GROUP_CCMP : Nat := 0x00000080
def NM_802_11_AP_SEC_KEY_MGMT_PSK : Nat := 0x00000100
def NM_802_11_AP_SEC_KEY_MGMT_802_1X : Nat := 0x00000200
def NM_802_11_AP_SEC_KEY_MGMT_SAE : Nat := 0x00000400
def NM_802_11_AP_SEC_KEY_MGMT_OWE : Nat := 0x00000800
def NM_802_11_AP_SEC_KEY_MGMT_OWE_TM : Nat := 0x00001000
def NM_802_11_AP_SEC_KEY_MGMT_EAP_SUITE_B_192 : Nat := 0x00002000

/-- Embeds `pairToFlags` (lines 37-45); the TypeScript `switch` is an
equality chain on the scrutinee string. -/
def pairToFlags (str : String) : Nat :=
  if str = "wep40" then NM_802_11_AP_SEC_PAIR_WEP40
  else if str = "wep104" then NM_802_11_AP_SEC_PAIR_WEP104
  else if str = "tkip" then NM_802_11_AP_SEC_PAIR_TKIP
  else if str = "ccmp" then NM_802_11_AP_SEC_PAIR_CCMP
  else NM_802_11_AP_SEC_NONE

/-- Embeds `groupToFlags` (lines 47-55). -/
def groupToFlags (str : String) : Nat :=
  if str = "wep40" then NM_802_11_AP_SEC_GROUP_WEP40
  else if str = "wep104" then NM_802_11_AP_SEC_GROUP_WEP104
  else if str = "tkip" then NM_802_11_AP_SEC_GROUP_TKIP
  else if str = "ccmp" then NM_802_11_AP_SEC_GROUP_CCMP
  else NM_802_11_AP_SEC_NONE

/-- Embeds `keyMgmtToFlags` (lines 57-67). -/
def keyMgmtToFlags (str : String) : Nat :=
  if str = "wpa-psk" then NM_802_11_AP_SEC_KEY_MGMT_PSK
  else if str = "wpa-eap" then NM_802_11_AP_SEC_KEY_MGMT_802_1X
  else if str = "sae" then NM_802_11_AP_SEC_KEY_MGMT_SAE
  else if str = "owe" then NM_802_11_AP_SEC_KEY_MGMT_OWE
  else if str = "owe-tm" then NM_802_11_AP_SEC_KEY_MGMT_OWE_TM
  else if str = "wpa-eap-suite-b-192" then NM_802_11_AP_SEC_KEY_MGMT_EAP_SUITE_B_192
  else NM_802_11_AP_SEC_NONE

end NM80211ApSecurityFlags

/-- A wpa_supplicant security dictionary as consumed by `securityFromDict`
(lines 69-92): each present key wraps its payload in a Variant whose
`.value` is read, flattened here to `Option` fields. -/
structure SecurityDict where
  KeyMgmt : Option (List String)
  Pairwise : Option (List String)
  Group : Option String
deriving DecidableEq, Repr

namespace NM80211ApSecurityFlags

/-- Embeds `securityFromDict` (lines 69-92): starts at `NONE`, ORs in the
flags of each key-management token, each pairwise token, and the single
group token, skipping absent dictionary keys. -/
def securityFromDict (security : SecurityDict) : Nat :=
  let flags := NM_802_11_AP_SEC_NONE
  let flags := match security.KeyMgmt with
    | some keyMgmtItems => keyMgmtItems.foldl (fun f item => f ||| keyMgmtToFlags item) flags
    | none => flags
  let flags := match security.Pairwise with
    | some pairwiseItems => pairwiseItems.foldl (fun f item => f ||| pairToFlags item) flags
    | none => flags
  match security.Group with
    | some groupItem => flags ||| groupToFlags groupItem
    | none => flags

end NM80211ApSecurityFlags

/-- The token vocabulary recognized by `keyMgmtToFlags`: exactly the cases
of its switch (lines 57-67). -/
def keyMgmtVocab : List String :=
  ["wpa-psk", "wpa-eap", "sae", "owe", "owe-tm", "wpa-eap-suite-b-192"]

/-- The token vocabulary recognized by `pairToFlags` (lines 37-45). -/
def pairwiseVocab : List String := ["wep40", "wep104", "tkip", "ccmp"]

/-- The token vocabulary recognized by `groupToFlags` (lines 47-55),
textually the same four ciphers as the pairwise vocabulary. -/
def groupVocab : List String := ["wep40", "wep104", "tkip", "ccmp"]

/-! ## String-keyed maps

JavaScript `Map` objects and plain objects used as dictionaries are both
embedded as association lists with first-match lookup.  `mapSet` models
`Map.prototype.set` / computed-key object spread (overwrite), `mapDelete`
models `Map.prototype.delete` / destructuring removal, `mapGet` models
`Map.prototype.get` / property access. -/

def mapGet {α : Type} (m : List (String × α)) (k : String) : Option α :=
  match m with
  | [] => none
  | (a, b) :: es => if a = k then some b else mapGet es k

def mapDelete {α : Type} (m : List (String × α)) (k : String) : List (String × α) :=
  match m with
  | [] => []
  | (a, b) :: es => if a = k then mapDelete es k else (a, b) :: mapDelete es k

def mapSet {α : Type} (m : List (String × α)) (k : String) (v : α) : List (String × α) :=
  (k, v) :: mapDelete m k

theorem mapGet_mapSet_self {α : Type} (m : List (String × α)) (k : String) (v : α) :
    mapGet (mapSet m k v) k = some v := by
  simp [mapSet, mapGet]

theorem mapGet_mapDelete_self {α : Type} (m : List (String × α)) (k : String) :
    mapGet (mapDelete m k) k = none := by
  induction m with
  | nil => rfl
  | cons hd tl ih =>
    obtain ⟨a, b⟩ := hd
    by_cases hx : a = k
    · simpa [mapDelete, hx] using ih
    · simpa [mapDelete, hx, mapGet] using ih

theorem mapGet_mapDelete_ne {α : Type} (m : List (String × α)) (k x : String)
    (h : k ≠ x) : mapGet (mapDelete m x) k = mapGet m k := by
  induction m with
  | nil => rfl
  | cons hd tl ih =>
    obtain ⟨a, b⟩ := hd
    by_cases hx : a = x
    · have hk : ¬ a = k := fun hc => h (hc.symm.trans hx)
      have hxk : ¬ x = k := fun hc => h hc.symm
      simp [mapDelete, hx, mapGet, hk, hxk, ih]
    · simp [mapDelete, hx, mapGet, ih]

theorem mapGet_mapSet_ne {α : Type} (m : List (String × α)) (k x : String) (v : α)
    (h : k ≠ x) : mapGet (mapSet m x v) k = mapGet m k := by
  have hx : ¬ x = k := fun hc => h hc.symm
  simp only [mapSet, mapGet, if_neg hx]
  exact mapGet_mapDelete_ne m k x h

theorem mapDelete_of_mapGet_none {α : Type} (m : List (String × α)) (k : String)
    (h : mapGet m k = none) : mapDelete m k = m := by
  induction m with
  | nil => rfl
  | cons hd tl ih =>
    obtain ⟨a, b⟩ := hd
    by_cases hx : a = k
    · simp [mapGet, hx] at h
    · simp only [mapGet, if_neg hx] at h
      simp [mapDelete, hx, ih h]

/-- Inserting into a map used only as a key set (`Map.prototype.set` where the
value is never compared): the key list gains `k` when absent. -/
def keySetInsert (s : List String) (k : String) : List String :=
  if s.contains k then s else s ++ [k]

/-! ## Data model

`AccessPointProperties` flattens the DBus Variant property bag of an
`org.freedesktop.NetworkManager.AccessPoint` object to the fields this
engine reads or writes (`Ssid` already decoded from its raw byte list by
`byteArrayToString`); `Strength` stands for the remaining fetched-but-never-
patched properties. -/

structure AccessPointProperties where
  Ssid : String
  HwAddress : String
  Strength : Nat
  LastSeen : Nat
  Frequency : Nat
  WpaFlags : Nat
  RsnFlags : Nat
deriving DecidableEq, Repr

/-- Payload of a BSS `PropertiesChanged` signal (`params[0]`, lines 363-386):
a partial property set, each present field flattened from its Variant. -/
structure BssPropsChanged where
  Age : Option Nat
  Frequency : Option Nat
  WPA : Option SecurityDict
  RSN : Option SecurityDict
deriving DecidableEq, Repr

/-- The mutable per-device state of `WifiDevice` (fields, lines 99-104),
together with an explicit model of the `BehaviorSubject`:
`subjectValue` is the subject's current value and `emissionCount` counts
`next()` calls; `liveSubscriptions` holds the identifiers of the
property-change listeners returned by `listenSignal` that have not been
unsubscribed, and `nextSubId` generates fresh identifiers. -/
structure WifiDeviceState where
  accessPoints : List (String × AccessPointProperties)
  subjectValue : List (String × AccessPointProperties)
  emissionCount : Nat
  accessPointPathMap : List (String × String)
  bssPathMap : List (String × String)
  bssInterfaceKeys : List String
  bssListeners : List (String × Nat)
  liveSubscriptions : List Nat
  nextSubId : Nat
deriving DecidableEq, Repr

/-! ## Signal handlers (embedded from `src/wifi-device.ts`) -/

/-- Embeds `_listenForBssPropertyChanges` (lines 355-390): if no interface is
recorded for `bssid` it returns, otherwise it creates a fresh
`PropertiesChanged` subscription (`listenSignal`, modelled by allocating
`nextSubId` into `liveSubscriptions`) and records the listener reference in
`_bssListeners` keyed by `bssid` (line 389). -/
def listenForBssPropertyChanges (st : WifiDeviceState) (bssid : String) : WifiDeviceState :=
  if st.bssInterfaceKeys.contains bssid then
    { st with
      liveSubscriptions := st.nextSubId :: st.liveSubscriptions,
      bssListeners := mapSet st.bssListeners bssid st.nextSubId,
      nextSubId := st.nextSubId + 1 }
  else
    st

/-- Embeds the `BSSAdded` handler (lines 321-336).  `bssid` is the result of
`formatMacAddress(params[1].BSSID.value)`; `proxyOk` tells whether the
`getProxyObject`/`getInterface` calls succeeded (on failure the catch block
logs and returns with nothing mutated). -/
def bssAddedHandler (st : WifiDeviceState) (bssPath bssid : String)
    (proxyOk : Bool) : WifiDeviceState :=
  if proxyOk then
    let st1 := { st with
      bssInterfaceKeys := keySetInsert st.bssInterfaceKeys bssid,
      bssPathMap := mapSet (mapSet st.bssPathMap bssid bssPath) bssPath bssid }
    listenForBssPropertyChanges st1 bssid
  else
    st

/-- Embeds the `BSSRemoved` handler (lines 337-349): deletes both directions
of the path pair from `_bssPathMap`, then looks `_bssListeners` up by
`bssPath` and, if an entry is found, unsubscribes it (removes its identifier
from the live set) and deletes the entry. -/
def bssRemovedHandler (st : WifiDeviceState) (bssPath : String) : WifiDeviceState :=
  let bssid := mapGet st.bssPathMap bssPath
  let pathMap := mapDelete st.bssPathMap bssPath
  let pathMap := match bssid with
    | some b => mapDelete pathMap b
    | none => pathMap
  let st1 := { st with bssPathMap := pathMap }
  match mapGet st1.bssListeners bssPath with
  | some listenerRef =>
      { st1 with
        liveSubscriptions := st1.liveSubscriptions.erase listenerRef,
        bssListeners := mapDelete st1.bssListeners bssPath }
  | none => st1

/-- Embeds the `AccessPointAdded` handler (lines 276-303).  `fetched` is the
outcome of the remote property fetch (`objectInterface` + `getAllProperties`,
with `Ssid` decoded); on failure the catch block logs and skips, on success
both directions of the identity pair are recorded, a fresh snapshot object is
built by spread, and `next` is called once. -/
def accessPointAddedHandler (st : WifiDeviceState) (apPath : String)
    (fetched : Except String AccessPointProperties) : WifiDeviceState :=
  match fetched with
  | .error _ => st
  | .ok accessPointProperties =>
    let bssid := accessPointProperties.HwAddress
    let pathMap := mapSet (mapSet st.accessPointPathMap bssid apPath) apPath bssid
    let aps := mapSet st.accessPoints apPath accessPointProperties
    { st with
      accessPointPathMap := pathMap,
      accessPoints := aps,
      subjectValue := aps,
      emissionCount := st.emissionCount + 1 }

/-- Embeds the `AccessPointRemoved` handler (lines 305-317): destructuring
removes `apPath` from the snapshot, both directions of the identity pair are
deleted (the reverse direction only when the forward lookup succeeded), and
`next` is called once with the filtered snapshot. -/
def accessPointRemovedHandler (st : WifiDeviceState) (apPath : String) : WifiDeviceState :=
  let filteredAccessPoints := mapDelete st.accessPoints apPath
  let bssid := mapGet st.accessPointPathMap apPath
  let pathMap := mapDelete st.accessPointPathMap apPath
  let pathMap := match bssid with
    | some b => mapDelete pathMap b
    | none => pathMap
  { st with
    accessPoints := filteredAccessPoints,
    accessPointPathMap := pathMap,
    subjectValue := filteredAccessPoints,
    emissionCount := st.emissionCount + 1 }

/-- How one run of the BSS `PropertiesChanged` handler (lines 363-387) ends:
normal return, one of the two logged lookup-miss returns, a `TypeError`
thrown by dereferencing a record absent from `_accessPoints`, or the error
re-raised by `_getUptime` (line 399) escaping the handler. -/
inductive BssPatchOutcome where
  | ok
  | bssPathNotFound
  | apPathNotFound
  | threwTypeError
  | threwUptimeError (e : String)
deriving DecidableEq, Repr

/-- The field assignments of lines 378-386 (`Frequency`, `WpaFlags`,
`RsnFlags`), followed by the write-back of the record mutated in place.
In the source the record object inside `_accessPoints` is mutated directly;
here that is one re-insertion under the same key.  The `BehaviorSubject`
holds the same map object as `_accessPoints` whenever the two were last
synchronized by `next`, so the in-place mutation is visible through the
subject exactly when `subjectValue` equals `accessPoints`; no `next` call
occurs, so `emissionCount` is unchanged. -/
def applyBssFieldUpdates (st : WifiDeviceState) (apPath : String)
    (props : AccessPointProperties) (params : BssPropsChanged) :
    WifiDeviceState × BssPatchOutcome :=
  let props := match params.Frequency with
    | some f => { props with Frequency := f }
    | none => props
  let props := match params.WPA with
    | some d => { props with WpaFlags := NM80211ApSecurityFlags.securityFromDict d }
    | none => props
  let props := match params.RSN with
    | some d => { props with RsnFlags := NM80211ApSecurityFlags.securityFromDict d }
    | none => props
  let aps := mapSet st.accessPoints apPath props
  ({ st with
      accessPoints := aps,
      subjectValue := if st.subjectValue = st.accessPoints then aps else st.subjectValue },
   .ok)

/-- Embeds the BSS `PropertiesChanged` handler (lines 363-387).  `uptimeRead`
is the outcome of `_getUptime` (consulted only when `Age` is present); an
`.error` models the logged-and-rethrown read failure.  When the resolved
`apPath` has no record in `_accessPoints`, the first field assignment
dereferences `undefined` and throws a `TypeError` (the member access is
evaluated before the uptime read on the right-hand side). -/
def bssPropertiesChangedHandler (st : WifiDeviceState) (bssid : String)
    (params : BssPropsChanged) (uptimeRead : Except String Nat) :
    WifiDeviceState × BssPatchOutcome :=
  match mapGet st.bssPathMap bssid with
  | none => (st, .bssPathNotFound)
  | some _ =>
    match mapGet st.accessPointPathMap bssid with
    | none => (st, .apPathNotFound)
    | some apPath =>
      match mapGet st.accessPoints apPath with
      | none =>
        if params.Age.isSome || params.Frequency.isSome
            || params.WPA.isSome || params.RSN.isSome
        then (st, .threwTypeError)
        else (st, .ok)
      | some props =>
        match params.Age with
        | some age =>
          match uptimeRead with
          | .error e => (st, .threwUptimeError e)
          | .ok uptimeSeconds =>
            applyBssFieldUpdates st apPath
              { props with LastSeen := uptimeSeconds + age } params
        | none => applyBssFieldUpdates st apPath props params

/-- Embeds the `WifiDevice` constructor (lines 119-149): the snapshot map is
stored, the `BehaviorSubject` is seeded with that same map, the listener map
starts empty, and `_listenForBss` subscribes to property changes of every
bootstrap-known BSS (loop, lines 350-352). -/
def mkWifiDeviceState (initialAccessPoints : List (String × AccessPointProperties))
    (initialBssPathMap initialAccessPointPathMap : List (String × String))
    (initialBssInterfaceKeys : List String) : WifiDeviceState :=
  let st : WifiDeviceState := {
    accessPoints := initialAccessPoints,
    subjectValue := initialAccessPoints,
    emissionCount := 0,
    accessPointPathMap := initialAccessPointPathMap,
    bssPathMap := initialBssPathMap,
    bssInterfaceKeys := initialBssInterfaceKeys,
    bssListeners := [],
    liveSubscriptions := [],
    nextSubId := 0 }
  initialBssInterfaceKeys.foldl listenForBssPropertyChanges st

/-! ## Bootstrap phase 2 (`getAccessPointDataFromPaths`, lines 174-191) -/

/-- Embeds the `getAccessPointDataFromPaths` loop of `init` (lines 174-191):
for each path the property fetch result is consumed in order; the loop body
has no try/catch, so the first failing fetch propagates immediately and the
remaining paths are never processed. -/
def getAccessPointDataFromPaths
    (fetches : List (String × Except String AccessPointProperties))
    (accessPoints : List (String × AccessPointProperties))
    (accessPointPathMap : List (String × String)) :
    Except String (List (String × AccessPointProperties) × List (String × String)) :=
  match fetches with
  | [] => .ok (accessPoints, accessPointPathMap)
  | (_, .error e) :: _ => .error e
  | (accessPointPath, .ok props) :: rest =>
    let accessPoints := mapSet accessPoints accessPointPath props
    let bssid := props.HwAddress
    let accessPointPathMap :=
      mapSet (mapSet accessPointPathMap bssid accessPointPath) accessPointPath bssid
    getAccessPointDataFromPaths rest accessPoints accessPointPathMap

/-- The phase-2 part of `init` together with its surrounding try/catch
(lines 160, 229-231): any error escaping the enumeration is wrapped and
rethrown as the initialization failure. -/
def initPhase2 (fetches : List (String × Except String AccessPointProperties)) :
    Except String (List (String × AccessPointProperties) × List (String × String)) :=
  match getAccessPointDataFromPaths fetches [] [] with
  | .ok r => .ok r
  | .error e => .error ("Error creating wifi device: " ++ e)

/-! ## Helper lemmas for the security-flag decoder -/

theorem keyMgmtToFlags_of_not_mem (t : String) (h : t ∉ keyMgmtVocab) :
    NM80211ApSecurityFlags.keyMgmtToFlags t = 0 := by
  simp [keyMgmtVocab] at h
  obtain ⟨h1, h2, h3, h4, h5, h6⟩ := h
  simp [NM80211ApSecurityFlags.keyMgmtToFlags,
    NM80211ApSecurityFlags.NM_802_11_AP_SEC_NONE, h1, h2, h3, h4, h5, h6]

theorem pairToFlags_of_not_mem (t : String) (h : t ∉ pairwiseVocab) :
    NM80211ApSecurityFlags.pairToFlags t = 0 := by
  simp [pairwiseVocab] at h
  obtain ⟨h1, h2, h3, h4⟩ := h
  simp [NM80211ApSecurityFlags.pairToFlags,
    NM80211ApSecurityFlags.NM_802_11_AP_SEC_NONE, h1, h2, h3, h4]

theorem groupToFlags_of_not_mem (t : String) (h : t ∉ groupVocab) :
    NM80211ApSecurityFlags.groupToFlags t = 0 := by
  simp [groupVocab] at h
  obtain ⟨h1, h2, h3, h4⟩ := h
  simp [NM80211ApSecurityFlags.groupToFlags,
    NM80211ApSecurityFlags.NM_802_11_AP_SEC_NONE, h1, h2, h3, h4]

theorem foldl_or_middle_zero (g : String → Nat) (t : String) (hg : g t = 0)
    (l1 l2 : List String) (a : Nat) :
    (l1 ++ t :: l2).foldl (fun f item => f ||| g item) a
      = (l1 ++ l2).foldl (fun f item => f ||| g item) a := by
  induction l1 generalizing a with
  | nil => simp [hg]
  | cons x xs ih => simp [List.foldl_cons, ih]

/-! ## Claim theorems -/

/-- Claim C5: decoding the dictionary
`{KeyMgmt: ["wpa-psk"], Pairwise: ["ccmp"], Group: "ccmp"}` yields exactly
`NM_802_11_AP_SEC_KEY_MGMT_PSK ||| NM_802_11_AP_SEC_PAIR_CCMP |||
NM_802_11_AP_SEC_GROUP_CCMP` (that is, `0x188`), and decoding the empty
dictionary yields `0`. -/
theorem c5_security_dict_examples :
    NM80211ApSecurityFlags.securityFromDict
        { KeyMgmt := some ["wpa-psk"], Pairwise := some ["ccmp"], Group := some "ccmp" }
      = (NM80211ApSecurityFlags.NM_802_11_AP_SEC_KEY_MGMT_PSK
          ||| NM80211ApSecurityFlags.NM_802_11_AP_SEC_PAIR_CCMP
          ||| NM80211ApSecurityFlags.NM_802_11_AP_SEC_GROUP_CCMP)
    ∧ NM80211ApSecurityFlags.securityFromDict
        { KeyMgmt := some ["wpa-psk"], Pairwise := some ["ccmp"], Group := some "ccmp" }
      = 0x188
    ∧ NM80211ApSecurityFlags.securityFromDict
        { KeyMgmt := none, Pairwise := none, Group := none } = 0 :=
  ⟨rfl, rfl, rfl⟩

/-- Claim C6: a token outside the recognized vocabulary contributes zero to
the decoded mask wherever it appears — inserted anywhere in the `KeyMgmt`
list, anywhere in the `Pairwise` list, or standing as the `Group` token —
so decoding with the token equals decoding with the token omitted, and no
error is ever produced (the decoder is total). -/
theorem c6_unrecognized_tokens_ignored (d : SecurityDict) (t : String) :
    (t ∉ keyMgmtVocab → ∀ l1 l2 : List String,
      NM80211ApSecurityFlags.securityFromDict { d with KeyMgmt := some (l1 ++ t :: l2) }
        = NM80211ApSecurityFlags.securityFromDict { d with KeyMgmt := some (l1 ++ l2) })
    ∧ (t ∉ pairwiseVocab → ∀ l1 l2 : List String,
      NM80211ApSecurityFlags.securityFromDict { d with Pairwise := some (l1 ++ t :: l2) }
        = NM80211ApSecurityFlags.securityFromDict { d with Pairwise := some (l1 ++ l2) })
    ∧ (t ∉ groupVocab →
      NM80211ApSecurityFlags.securityFromDict { d with Group := some t }
        = NM80211ApSecurityFlags.securityFromDict { d with Group := none }) := by
  refine ⟨?_, ?_, ?_⟩
  · intro h l1 l2
    have hg := keyMgmtToFlags_of_not_mem t h
    simp only [NM80211ApSecurityFlags.securityFromDict]
    rw [foldl_or_middle_zero NM80211ApSecurityFlags.keyMgmtToFlags t hg]
  · intro h l1 l2
    have hg := pairToFlags_of_not_mem t h
    simp only [NM80211ApSecurityFlags.securityFromDict]
    rw [foldl_or_middle_zero NM80211ApSecurityFlags.pairToFlags t hg]
  · intro h
    have hg := groupToFlags_of_not_mem t h
    simp [NM80211ApSecurityFlags.securityFromDict, hg]

/-- Closed instance of C6: the unrecognized token `"wpa3-unknown"` appended
to the `KeyMgmt` list of a concrete dictionary leaves the decoded mask
unchanged. -/
theorem c6_unrecognized_tokens_ignored_witness :
    "wpa3-unknown" ∉ keyMgmtVocab ∧
    NM80211ApSecurityFlags.securityFromDict
        { KeyMgmt := some (["wpa-psk"] ++ "wpa3-unknown" :: []),
          Pairwise := some ["ccmp"], Group := some "ccmp" }
      = NM80211ApSecurityFlags.securityFromDict
        { KeyMgmt := some (["wpa-psk"] ++ []),
          Pairwise := some ["ccmp"], Group := some "ccmp" } :=
  ⟨by decide,
    (c6_unrecognized_tokens_ignored
        ⟨some ["wpa-psk"], some ["ccmp"], some "ccmp"⟩ "wpa3-unknown").1
      (by decide) ["wpa-psk"] []⟩

/-- State of a freshly constructed device after a `BSSAdded` event for path
`/fi/w1/wpa_supplicant1/Interfaces/0/BSSs/1` with identity
`AA:BB:CC:DD:EE:FF`. -/
def c1AfterAdd : WifiDeviceState :=
  bssAddedHandler (mkWifiDeviceState [] [] [] [])
    "/fi/w1/wpa_supplicant1/Interfaces/0/BSSs/1" "AA:BB:CC:DD:EE:FF" true

/-- State after the matching `BSSRemoved` event for the same path. -/
def c1AfterRemove : WifiDeviceState :=
  bssRemovedHandler c1AfterAdd "/fi/w1/wpa_supplicant1/Interfaces/0/BSSs/1"

/-- Claim C1 is violated by the code, shown by running the handlers at a
concrete input: after `BSSAdded` records a subscription for identity
`AA:BB:CC:DD:EE:FF` (stored in `_bssListeners` keyed by the identity,
line 389), the `BSSRemoved` handler for the same path looks `_bssListeners`
up by the path (line 344), misses, and returns without unsubscribing — the
subscription for the identity is still live afterwards. -/
theorem c1_bss_removed_leaks_subscription :
    mapGet c1AfterAdd.bssListeners "AA:BB:CC:DD:EE:FF" = some 0
      ∧ c1AfterAdd.liveSubscriptions = [0]
      ∧ mapGet c1AfterRemove.bssPathMap "/fi/w1/wpa_supplicant1/Interfaces/0/BSSs/1" = none
      ∧ mapGet c1AfterRemove.bssListeners "AA:BB:CC:DD:EE:FF" = some 0
      ∧ c1AfterRemove.liveSubscriptions = [0] :=
  ⟨rfl, rfl, rfl, rfl, rfl⟩

/-- Claim C8: processing `AccessPointRemoved(p)` deletes exactly the record
at `p` from the snapshot and both directions of `p`'s identity-index pair,
leaves every other registry record and index entry unchanged (and touches no
other component), and is a no-op without error on a `p` that was never
added. -/
theorem c8_access_point_removed_exact_effect (st : WifiDeviceState) (p : String) :
    mapGet (accessPointRemovedHandler st p).accessPoints p = none
    ∧ (∀ q : String, q ≠ p →
        mapGet (accessPointRemovedHandler st p).accessPoints q = mapGet st.accessPoints q)
    ∧ mapGet (accessPointRemovedHandler st p).accessPointPathMap p = none
    ∧ (∀ h : String, mapGet st.accessPointPathMap p = some h →
        mapGet (accessPointRemovedHandler st p).accessPointPathMap h = none)
    ∧ (∀ k : String, k ≠ p → mapGet st.accessPointPathMap p ≠ some k →
        mapGet (accessPointRemovedHandler st p).accessPointPathMap k
          = mapGet st.accessPointPathMap k)
    ∧ (mapGet st.accessPoints p = none →
        (accessPointRemovedHandler st p).accessPoints = st.accessPoints)
    ∧ (mapGet st.accessPointPathMap p = none →
        (accessPointRemovedHandler st p).accessPointPathMap = st.accessPointPathMap)
    ∧ (accessPointRemovedHandler st p).bssPathMap = st.bssPathMap
    ∧ (accessPointRemovedHandler st p).bssListeners = st.bssListeners
    ∧ (accessPointRemovedHandler st p).liveSubscriptions = st.liveSubscriptions := by
  unfold accessPointRemovedHandler
  cases hb : mapGet st.accessPointPathMap p with
  | none =>
    simp only [hb]
    refine ⟨mapGet_mapDelete_self _ _,
      fun q hq => mapGet_mapDelete_ne _ _ _ hq,
      mapGet_mapDelete_self _ _, ?_, ?_,
      fun hnone => mapDelete_of_mapGet_none _ _ hnone,
      fun _ => mapDelete_of_mapGet_none _ _ hb,
      trivial, trivial, trivial⟩
    · intro h hh
      cases hh
    · intro k hk _
      exact mapGet_mapDelete_ne _ _ _ hk
  | some b =>
    simp only [hb]
    refine ⟨mapGet_mapDelete_self _ _,
      fun q hq => mapGet_mapDelete_ne _ _ _ hq,
      ?_, ?_, ?_,
      fun hnone => mapDelete_of_mapGet_none _ _ hnone,
      ?_, trivial, trivial, trivial⟩
    · by_cases hpb : p = b
      · subst hpb
        exact mapGet_mapDelete_self _ _
      · rw [mapGet_mapDelete_ne _ _ _ hpb]
        exact mapGet_mapDelete_self _ _
    · intro h hh
      rw [← Option.some.inj hh]
      exact mapGet_mapDelete_self _ _
    · intro k hk hkb
      have hkb2 : k ≠ b := fun hc => hkb (by rw [hc])
      rw [mapGet_mapDelete_ne _ _ _ hkb2, mapGet_mapDelete_ne _ _ _ hk]
    · intro hcontra
      cases hcontra

/-- Closed instance of C8 at a two-record registry: removing `/ap/1` empties
its entry while `/ap/2` keeps its record. -/
theorem c8_access_point_removed_exact_effect_witness :
    (mapGet (accessPointRemovedHandler
        { accessPoints := [("/ap/1", ⟨"Home", "AA:BB:CC:DD:EE:FF", 70, 0, 2412, 0, 0⟩),
                           ("/ap/2", ⟨"Cafe", "11:22:33:44:55:66", 50, 0, 2437, 0, 0⟩)],
          subjectValue := [("/ap/1", ⟨"Home", "AA:BB:CC:DD:EE:FF", 70, 0, 2412, 0, 0⟩),
                           ("/ap/2", ⟨"Cafe", "11:22:33:44:55:66", 50, 0, 2437, 0, 0⟩)],
          emissionCount := 0,
          accessPointPathMap := [("AA:BB:CC:DD:EE:FF", "/ap/1"), ("/ap/1", "AA:BB:CC:DD:EE:FF"),
                                 ("11:22:33:44:55:66", "/ap/2"), ("/ap/2", "11:22:33:44:55:66")],
          bssPathMap := [], bssInterfaceKeys := [], bssListeners := [],
          liveSubscriptions := [], nextSubId := 0 }
        "/ap/1").accessPoints "/ap/1" = none)
    ∧ (mapGet (accessPointRemovedHandler
        { accessPoints := [("/ap/1", ⟨"Home", "AA:BB:CC:DD:EE:FF", 70, 0, 2412, 0, 0⟩),
                           ("/ap/2", ⟨"Cafe", "11:22:33:44:55:66", 50, 0, 2437, 0, 0⟩)],
          subjectValue := [("/ap/1", ⟨"Home", "AA:BB:CC:DD:EE:FF", 70, 0, 2412, 0, 0⟩),
                           ("/ap/2", ⟨"Cafe", "11:22:33:44:55:66", 50, 0, 2437, 0, 0⟩)],
          emissionCount := 0,
          accessPointPathMap := [("AA:BB:CC:DD:EE:FF", "/ap/1"), ("/ap/1", "AA:BB:CC:DD:EE:FF"),
                                 ("11:22:33:44:55:66", "/ap/2"), ("/ap/2", "11:22:33:44:55:66")],
          bssPathMap := [], bssInterfaceKeys := [], bssListeners := [],
          liveSubscriptions := [], nextSubId := 0 }
        "/ap/1").accessPoints "/ap/2"
      = some ⟨"Cafe", "11:22:33:44:55:66", 50, 0, 2437, 0, 0⟩) :=
  ⟨(c8_access_point_removed_exact_effect _ "/ap/1").1,
    ((c8_access_point_removed_exact_effect _ "/ap/1").2.1 "/ap/2" (by decide)).trans (by decide)⟩

/-- Claim C7: when a correlated BSS property-change event carries `Age = a`
and the uptime read returns `u`, the matched record's `LastSeen` becomes
`u + a`, and a `Frequency` value carried in the same event is copied through
unchanged. -/
theorem c7_age_and_frequency_patch (st : WifiDeviceState) (bssid : String)
    (params : BssPropsChanged) (u a f : Nat)
    (bssPath apPath : String) (props : AccessPointProperties)
    (h1 : mapGet st.bssPathMap bssid = some bssPath)
    (h2 : mapGet st.accessPointPathMap bssid = some apPath)
    (h3 : mapGet st.accessPoints apPath = some props)
    (hage : params.Age = some a)
    (hfreq : params.Frequency = some f) :
    ∃ props2 : AccessPointProperties,
      mapGet (bssPropertiesChangedHandler st bssid params (.ok u)).1.accessPoints apPath
          = some props2
        ∧ props2.LastSeen = u + a
        ∧ props2.Frequency = f := by
  unfold bssPropertiesChangedHandler
  simp only [h1, h2, h3, hage]
  unfold applyBssFieldUpdates
  simp only [hfreq]
  cases hW : params.WPA <;> cases hR : params.RSN <;>
    simp only [hW, hR] <;>
    exact ⟨_, mapGet_mapSet_self _ _ _, rfl, rfl⟩

/-- Closed instance of C7: `Age = 5` at uptime `100` sets the record's
last-seen to `105`, and `Frequency = 2412` is copied through. -/
theorem c7_age_and_frequency_patch_witness :
    ∃ props2 : AccessPointProperties,
      mapGet (bssPropertiesChangedHandler
          { accessPoints := [("/ap/1", ⟨"Home", "AA:BB:CC:DD:EE:FF", 70, 0, 5180, 0, 0⟩)],
            subjectValue := [("/ap/1", ⟨"Home", "AA:BB:CC:DD:EE:FF", 70, 0, 5180, 0, 0⟩)],
            emissionCount := 0,
            accessPointPathMap := [("AA:BB:CC:DD:EE:FF", "/ap/1"), ("/ap/1", "AA:BB:CC:DD:EE:FF")],
            bssPathMap := [("AA:BB:CC:DD:EE:FF", "/bss/1"), ("/bss/1", "AA:BB:CC:DD:EE:FF")],
            bssInterfaceKeys := [], bssListeners := [], liveSubscriptions := [], nextSubId := 0 }
          "AA:BB:CC:DD:EE:FF"
          { Age := some 5, Frequency := some 2412, WPA := none, RSN := none }
          (.ok 100)).1.accessPoints "/ap/1"
        = some props2
      ∧ props2.LastSeen = 105
      ∧ props2.Frequency = 2412 :=
  c7_age_and_frequency_patch _ "AA:BB:CC:DD:EE:FF" _ 100 5 2412 "/bss/1" "/ap/1"
    ⟨"Home", "AA:BB:CC:DD:EE:FF", 70, 0, 5180, 0, 0⟩ rfl rfl rfl rfl rfl

/-- Claim C9 fails on the code at a concrete input: the event carries both
`Age` and `Frequency`, the uptime read fails, and the handler aborts with the
re-raised error before reaching the `Frequency` assignment — the record's
frequency stays `5180` instead of being patched to `2412`, refuting that
the other field updates are still applied. -/
theorem c9_counterexample_failed_uptime_drops_frequency :
    (bssPropertiesChangedHandler
        { accessPoints := [("/ap/1", ⟨"Home", "AA:BB:CC:DD:EE:FF", 70, 0, 5180, 0, 0⟩)],
          subjectValue := [("/ap/1", ⟨"Home", "AA:BB:CC:DD:EE:FF", 70, 0, 5180, 0, 0⟩)],
          emissionCount := 0,
          accessPointPathMap := [("AA:BB:CC:DD:EE:FF", "/ap/1"), ("/ap/1", "AA:BB:CC:DD:EE:FF")],
          bssPathMap := [("AA:BB:CC:DD:EE:FF", "/bss/1"), ("/bss/1", "AA:BB:CC:DD:EE:FF")],
          bssInterfaceKeys := [], bssListeners := [], liveSubscriptions := [], nextSubId := 0 }
        "AA:BB:CC:DD:EE:FF"
        { Age := some 5, Frequency := some 2412, WPA := none, RSN := none }
        (.error "EACCES: permission denied")).2
      = .threwUptimeError "EACCES: permission denied"
    ∧ (mapGet (bssPropertiesChangedHandler
        { accessPoints := [("/ap/1", ⟨"Home", "AA:BB:CC:DD:EE:FF", 70, 0, 5180, 0, 0⟩)],
          subjectValue := [("/ap/1", ⟨"Home", "AA:BB:CC:DD:EE:FF", 70, 0, 5180, 0, 0⟩)],
          emissionCount := 0,
          accessPointPathMap := [("AA:BB:CC:DD:EE:FF", "/ap/1"), ("/ap/1", "AA:BB:CC:DD:EE:FF")],
          bssPathMap := [("AA:BB:CC:DD:EE:FF", "/bss/1"), ("/bss/1", "AA:BB:CC:DD:EE:FF")],
          bssInterfaceKeys := [], bssListeners := [], liveSubscriptions := [], nextSubId := 0 }
        "AA:BB:CC:DD:EE:FF"
        { Age := some 5, Frequency := some 2412, WPA := none, RSN := none }
        (.error "EACCES: permission denied")).1.accessPoints "/ap/1").map
          AccessPointProperties.Frequency
      = some 5180 :=
  ⟨rfl, rfl⟩

/-- Claim C9 amended: when the uptime read fails while the handler is
processing an event that carries `Age` for a correlated record, the logged
and re-raised error escapes the handler at the first field assignment, so
every field update in that event (last-seen, frequency, WPA and RSN masks)
is dropped and the device state is left entirely unchanged. -/
theorem c9_amended_uptime_failure_drops_whole_event (st : WifiDeviceState)
    (bssid : String) (params : BssPropsChanged) (e : String) (a : Nat)
    (bssPath apPath : String) (props : AccessPointProperties)
    (h1 : mapGet st.bssPathMap bssid = some bssPath)
    (h2 : mapGet st.accessPointPathMap bssid = some apPath)
    (h3 : mapGet st.accessPoints apPath = some props)
    (hage : params.Age = some a) :
    bssPropertiesChangedHandler st bssid params (.error e)
      = (st, .threwUptimeError e) := by
  unfold bssPropertiesChangedHandler
  simp only [h1, h2, h3, hage]

/-- A one-record correlated device state used to instantiate the amended C9. -/
def c9WitnessState : WifiDeviceState :=
  { accessPoints := [("/ap/1", ⟨"Home", "AA:BB:CC:DD:EE:FF", 70, 0, 5180, 0, 0⟩)],
    subjectValue := [("/ap/1", ⟨"Home", "AA:BB:CC:DD:EE:FF", 70, 0, 5180, 0, 0⟩)],
    emissionCount := 0,
    accessPointPathMap := [("AA:BB:CC:DD:EE:FF", "/ap/1"), ("/ap/1", "AA:BB:CC:DD:EE:FF")],
    bssPathMap := [("AA:BB:CC:DD:EE:FF", "/bss/1"), ("/bss/1", "AA:BB:CC:DD:EE:FF")],
    bssInterfaceKeys := [], bssListeners := [], liveSubscriptions := [], nextSubId := 0 }

/-- Closed instance of the amended C9 at a one-record state. -/
theorem c9_amended_uptime_failure_drops_whole_event_witness :
    bssPropertiesChangedHandler c9WitnessState "AA:BB:CC:DD:EE:FF"
        { Age := some 7, Frequency := none, WPA := none, RSN := none }
        (.error "ENOENT")
      = (c9WitnessState, .threwUptimeError "ENOENT") :=
  c9_amended_uptime_failure_drops_whole_event c9WitnessState "AA:BB:CC:DD:EE:FF" _
    "ENOENT" 7 "/bss/1" "/ap/1" ⟨"Home", "AA:BB:CC:DD:EE:FF", 70, 0, 5180, 0, 0⟩
    rfl rfl rfl rfl

/-- A device state whose identity index resolves `AA:BB:CC:DD:EE:FF` to
`/ap/1` while the registry holds no record at `/ap/1` (desynchronized). -/
def c4DesyncState : WifiDeviceState :=
  { accessPoints := [],
    subjectValue := [],
    emissionCount := 0,
    accessPointPathMap := [("AA:BB:CC:DD:EE:FF", "/ap/1"), ("/ap/1", "AA:BB:CC:DD:EE:FF")],
    bssPathMap := [("AA:BB:CC:DD:EE:FF", "/bss/1"), ("/bss/1", "AA:BB:CC:DD:EE:FF")],
    bssInterfaceKeys := [], bssListeners := [], liveSubscriptions := [], nextSubId := 0 }

/-- Claim C4 is violated by the code, shown at a concrete input: the identity
index resolves the identity to `/ap/1`, `/ap/1` is absent from the registry,
the event carries `Age`, and the handler dereferences the missing record and
throws a `TypeError` instead of logging a warning — an exception escapes the
event handler (the registry is indeed left unchanged). -/
theorem c4_patch_unknown_path_throws :
    bssPropertiesChangedHandler c4DesyncState "AA:BB:CC:DD:EE:FF"
        { Age := some 5, Frequency := none, WPA := none, RSN := none }
        (.ok 100)
      = (c4DesyncState, .threwTypeError) :=
  rfl

/-- Claim C3 fails on the code at a concrete input: with two access points to
enumerate and the first property fetch failing, phase 2 rethrows immediately
and initialization rejects with the wrapped error — `/ap/2` is never
processed, refuting that a single failure is skipped and the rest inserted. -/
theorem c3_counterexample_phase2_aborts :
    initPhase2 [("/ap/1", .error "fetch failed"),
                ("/ap/2", .ok ⟨"Cafe", "11:22:33:44:55:66", 50, 0, 2437, 0, 0⟩)]
      = .error "Error creating wifi device: fetch failed" :=
  rfl

theorem getAccessPointDataFromPaths_error_of_mem
    (pre : List (String × AccessPointProperties)) (path e : String)
    (post : List (String × Except String AccessPointProperties)) :
    ∀ aps idx, getAccessPointDataFromPaths
        (pre.map (fun x => (x.1, Except.ok x.2)) ++ (path, Except.error e) :: post) aps idx
      = .error e := by
  induction pre with
  | nil =>
    intro aps idx
    rfl
  | cons hd tl ih =>
    intro aps idx
    obtain ⟨p, pr⟩ := hd
    simp only [List.map_cons, List.cons_append, getAccessPointDataFromPaths]
    exact ih _ _

/-- Claim C3 amended: a failure fetching one access point's properties during
bootstrap phase 2 aborts the whole initialization — however many access
points were already processed and however many remain, the loop rethrows at
the first failing fetch and `init` rejects with the wrapped error, so the
remaining access points are never fetched, indexed, or inserted. -/
theorem c3_amended_first_fetch_failure_aborts_init
    (pre : List (String × AccessPointProperties)) (path e : String)
    (post : List (String × Except String AccessPointProperties)) :
    initPhase2 (pre.map (fun x => (x.1, Except.ok x.2)) ++ (path, Except.error e) :: post)
      = .error ("Error creating wifi device: " ++ e) := by
  unfold initPhase2
  rw [getAccessPointDataFromPaths_error_of_mem pre path e post [] []]

/-- Claim C2 fails on the code at a concrete input: a BSS property-change
event patches the correlated record's frequency from `5180` to `2412` in the
registry, yet the emission count is unchanged — a registry mutation with
zero emissions on the snapshot stream, refuting "exactly one emission per
event" (the record is also mutated inside the currently published snapshot
rather than a fresh one, as the subject's value changes without a `next`
call). -/
theorem c2_counterexample_patch_without_emission :
    (mapGet (bssPropertiesChangedHandler
        { accessPoints := [("/ap/1", ⟨"Home", "AA:BB:CC:DD:EE:FF", 70, 0, 5180, 0, 0⟩)],
          subjectValue := [("/ap/1", ⟨"Home", "AA:BB:CC:DD:EE:FF", 70, 0, 5180, 0, 0⟩)],
          emissionCount := 3,
          accessPointPathMap := [("AA:BB:CC:DD:EE:FF", "/ap/1"), ("/ap/1", "AA:BB:CC:DD:EE:FF")],
          bssPathMap := [("AA:BB:CC:DD:EE:FF", "/bss/1"), ("/bss/1", "AA:BB:CC:DD:EE:FF")],
          bssInterfaceKeys := [], bssListeners := [], liveSubscriptions := [], nextSubId := 0 }
        "AA:BB:CC:DD:EE:FF"
        { Age := none, Frequency := some 2412, WPA := none, RSN := none }
        (.ok 100)).1.accessPoints "/ap/1").map AccessPointProperties.Frequency
      = some 2412
    ∧ (bssPropertiesChangedHandler
        { accessPoints := [("/ap/1", ⟨"Home", "AA:BB:CC:DD:EE:FF", 70, 0, 5180, 0, 0⟩)],
          subjectValue := [("/ap/1", ⟨"Home", "AA:BB:CC:DD:EE:FF", 70, 0, 5180, 0, 0⟩)],
          emissionCount := 3,
          accessPointPathMap := [("AA:BB:CC:DD:EE:FF", "/ap/1"), ("/ap/1", "AA:BB:CC:DD:EE:FF")],
          bssPathMap := [("AA:BB:CC:DD:EE:FF", "/bss/1"), ("/bss/1", "AA:BB:CC:DD:EE:FF")],
          bssInterfaceKeys := [], bssListeners := [], liveSubscriptions := [], nextSubId := 0 }
        "AA:BB:CC:DD:EE:FF"
        { Age := none, Frequency := some 2412, WPA := none, RSN := none }
        (.ok 100)).1.emissionCount
      = 3 :=
  ⟨rfl, rfl⟩

/-- Claim C2 amended: the insert handled by `AccessPointAdded` (when its
fetch succeeds) and the remove handled by `AccessPointRemoved` each build a
fresh snapshot and emit it exactly once on the stream; a failed
`AccessPointAdded` fetch changes nothing and emits nothing; the field patch
handled by a BSS `PropertiesChanged` event mutates the current record in
place and emits nothing — the emission count never changes for a patch. -/
theorem c2_amended_emission_discipline (st : WifiDeviceState) (apPath : String)
    (props : AccessPointProperties) (e : String) (bssid : String)
    (params : BssPropsChanged) (uptimeRead : Except String Nat) :
    ((accessPointAddedHandler st apPath (.ok props)).emissionCount
        = st.emissionCount + 1
      ∧ (accessPointAddedHandler st apPath (.ok props)).subjectValue
        = mapSet st.accessPoints apPath props
      ∧ (accessPointAddedHandler st apPath (.ok props)).accessPoints
        = mapSet st.accessPoints apPath props)
    ∧ accessPointAddedHandler st apPath (.error e) = st
    ∧ ((accessPointRemovedHandler st apPath).emissionCount = st.emissionCount + 1
      ∧ (accessPointRemovedHandler st apPath).subjectValue
        = mapDelete st.accessPoints apPath)
    ∧ (bssPropertiesChangedHandler st bssid params uptimeRead).1.emissionCount
        = st.emissionCount := by
  refine ⟨⟨rfl, rfl, rfl⟩, rfl, ⟨rfl, rfl⟩, ?_⟩
  unfold bssPropertiesChangedHandler
  split
  · rfl
  · split
    · rfl
    · split
      · split
        · rfl
        · rfl
      · split
        · split
          · rfl
          · rfl
        · rfl

/-! ## Getter / stream agreement (claim C10) -/

/-- The one-time `accessPoints` getter (line 115) agrees with the
`BehaviorSubject` current value — the most recent emission on
`accessPoints$` (or the seeded initial value before any emission). -/
def getterAgreesWithStream (st : WifiDeviceState) : Prop :=
  st.subjectValue = st.accessPoints

theorem listenForBssPropertyChanges_preserves_snapshot
    (st : WifiDeviceState) (b : String) :
    (listenForBssPropertyChanges st b).accessPoints = st.accessPoints
    ∧ (listenForBssPropertyChanges st b).subjectValue = st.subjectValue := by
  unfold listenForBssPropertyChanges
  split
  · exact ⟨rfl, rfl⟩
  · exact ⟨rfl, rfl⟩

theorem foldl_listen_preserves_snapshot (ik : List String) :
    ∀ st : WifiDeviceState,
      (ik.foldl listenForBssPropertyChanges st).accessPoints = st.accessPoints
      ∧ (ik.foldl listenForBssPropertyChanges st).subjectValue = st.subjectValue := by
  induction ik with
  | nil =>
    intro st
    exact ⟨rfl, rfl⟩
  | cons hd tl ih =>
    intro st
    have h1 := listenForBssPropertyChanges_preserves_snapshot st hd
    have h2 := ih (listenForBssPropertyChanges st hd)
    exact ⟨h2.1.trans h1.1, h2.2.trans h1.2⟩

theorem applyBssFieldUpdates_agrees (st : WifiDeviceState) (apPath : String)
    (props : AccessPointProperties) (params : BssPropsChanged)
    (h : st.subjectValue = st.accessPoints) :
    (applyBssFieldUpdates st apPath props params).1.subjectValue
      = (applyBssFieldUpdates st apPath props params).1.accessPoints := by
  simp [applyBssFieldUpdates, h]

/-- Claim C10: the synchronous `accessPoints` getter and the latest value on
the `accessPoints$` stream never disagree: the subject is seeded with the
initial map at construction, and every handler either reassigns the map
immediately before emitting that same map, leaves both untouched, or (for
the in-place patch) changes both through the shared reference — so agreement
is established at construction and preserved by every handler. -/
theorem c10_getter_agrees_with_stream :
    (∀ (ia : List (String × AccessPointProperties))
        (ib ip : List (String × String)) (ik : List String),
      getterAgreesWithStream (mkWifiDeviceState ia ib ip ik))
    ∧ (∀ (st : WifiDeviceState) (apPath : String)
        (fetched : Except String AccessPointProperties),
        getterAgreesWithStream st →
        getterAgreesWithStream (accessPointAddedHandler st apPath fetched))
    ∧ (∀ (st : WifiDeviceState) (apPath : String),
        getterAgreesWithStream st →
        getterAgreesWithStream (accessPointRemovedHandler st apPath))
    ∧ (∀ (st : WifiDeviceState) (bssPath bssid : String) (proxyOk : Bool),
        getterAgreesWithStream st →
        getterAgreesWithStream (bssAddedHandler st bssPath bssid proxyOk))
    ∧ (∀ (st : WifiDeviceState) (bssPath : String),
        getterAgreesWithStream st →
        getterAgreesWithStream (bssRemovedHandler st bssPath))
    ∧ (∀ (st : WifiDeviceState) (bssid : String) (params : BssPropsChanged)
        (uptimeRead : Except String Nat),
        getterAgreesWithStream st →
        getterAgreesWithStream (bssPropertiesChangedHandler st bssid params uptimeRead).1) := by
  refine ⟨?_, ?_, ?_, ?_, ?_, ?_⟩
  · intro ia ib ip ik
    have h := foldl_listen_preserves_snapshot ik
      { accessPoints := ia, subjectValue := ia, emissionCount := 0,
        accessPointPathMap := ip, bssPathMap := ib, bssInterfaceKeys := ik,
        bssListeners := [], liveSubscriptions := [], nextSubId := 0 }
    exact h.2.trans h.1.symm
  · intro st apPath fetched h
    cases fetched with
    | error e => exact h
    | ok props => rfl
  · intro st apPath h
    rfl
  · intro st bssPath bssid proxyOk h
    unfold bssAddedHandler
    split
    · have hp := listenForBssPropertyChanges_preserves_snapshot
        { st with
          bssInterfaceKeys := keySetInsert st.bssInterfaceKeys bssid,
          bssPathMap := mapSet (mapSet st.bssPathMap bssid bssPath) bssPath bssid } bssid
      exact hp.2.trans (h.trans hp.1.symm)
    · exact h
  · intro st bssPath h
    unfold bssRemovedHandler
    cases hL : mapGet st.bssListeners bssPath with
    | none => simpa [hL, getterAgreesWithStream] using h
    | some listenerRef => simpa [hL, getterAgreesWithStream] using h
  · intro st bssid params uptimeRead h
    unfold bssPropertiesChangedHandler
    split
    · exact h
    · split
      · exact h
      · split
        · split
          · exact h
          · exact h
        · split
          · split
            · exact h
            · exact applyBssFieldUpdates_agrees _ _ _ _ h
          · exact applyBssFieldUpdates_agrees _ _ _ _ h

/-- Closed instance of C10: agreement holds after construction and survives
a remove event at a concrete state. -/
theorem c10_getter_agrees_with_stream_witness :
    getterAgreesWithStream
      (accessPointRemovedHandler
        (mkWifiDeviceState
          [("/ap/1", ⟨"Home", "AA:BB:CC:DD:EE:FF", 70, 0, 2412, 0, 0⟩)]
          [] [("AA:BB:CC:DD:EE:FF", "/ap/1"), ("/ap/1", "AA:BB:CC:DD:EE:FF")] [])
        "/ap/1") :=
  c10_getter_agrees_with_stream.2.2.1 _ "/ap/1"
    (c10_getter_agrees_with_stream.1
      [("/ap/1", ⟨"Home", "AA:BB:CC:DD:EE:FF", 70, 0, 2412, 0, 0⟩)]
      [] [("AA:BB:CC:DD:EE:FF", "/ap/1"), ("/ap/1", "AA:BB:CC:DD:EE:FF")] [])

end NMDBus
